import Mathlib

/-!
# ptgrey_bfly_camera: the camera node's calibration pipeline

A shallow embedding of `src/bfly_camera_node.cpp`.  The node object becomes a
record, `BflyCameraNode`; everything outside the node that its methods touch
(the camera device, the ROS clock, the calibration file, the two publishers)
becomes a second record, `World`, and every method is a function from a node
and a world to the node and world after the call.

Matrix elements and pixels are only ever copied by this code, never computed
with, so an element is modelled as an integer standing for the stored value.
-/

namespace BflyCamera

/-- One stored matrix element (a `double` of a calibration matrix, a pixel of a frame). -/
abbrev Elem := Int

/-- The type `cv::Mat`, as far as the node uses it: a shape and the elements in row-major order. -/
structure Mat where
  rows : Nat
  cols : Nat
  data : List Elem
deriving DecidableEq, Repr

namespace Mat

/-- The default-constructed `cv::Mat()`: no rows, no columns, no data. -/
def empty : Mat := ⟨0, 0, []⟩

/-- The constructor `cv::Mat(rows, cols, CV_64FC1)`: storage is allocated and not
initialised; `junk` gives whatever the allocation holds. -/
def create (rows cols : Nat) (junk : Nat → Elem) : Mat :=
  ⟨rows, cols, (List.range (rows * cols)).map junk⟩

/-- The accessor `m.at<double>(i0)`, the `i0`-th element in row-major order.
An index past the data is undefined in the source; it reads 0 here.  The condition
`BflyCameraNode.ReadsInRange` says when every read of `publish` is within the data. -/
def atIdx (m : Mat) (i0 : Nat) : Elem := m.data.getD i0 0

/-- The accessor `m.at<double>(i, j)`, element `i * cols + j` of the data.
An index past the data is undefined in the source; it reads 0 here.  The condition
`BflyCameraNode.ReadsInRange` says when every read of `publish` is within the data. -/
def atRC (m : Mat) (i j : Nat) : Elem := m.data.getD (i * m.cols + j) 0

/-- The comma initialiser `(cv::Mat_<double>(rows, cols) << v0, v1, ...)`. -/
def ofValues (rows cols : Nat) (vs : List Elem) : Mat := ⟨rows, cols, vs⟩

/-- A matrix of `r` rows and `c` columns with all its `r * c` elements present. -/
def HasShape (m : Mat) (r c : Nat) : Prop :=
  m.rows = r ∧ m.cols = c ∧ m.data.length = r * c

instance (m : Mat) (r c : Nat) : Decidable (m.HasShape r c) := by
  unfold HasShape; infer_instance

end Mat

/-- A fixed-size array of a message (`boost::array<double, n>`). -/
abbrev FixedArray (n : Nat) := Fin n → Elem

/-- The assignment `a[i] = v`.  No loop of the node writes past the end of an array;
such a write would change nothing here. -/
def FixedArray.set {n : Nat} (a : FixedArray n) (i : Nat) (v : Elem) : FixedArray n :=
  fun k => if k.val = i then v else a k

/-- The loop `for (unsigned int ii = 0; ii < n; ii++) body`, threading the state the body changes. -/
def forLoop {σ : Type} (n : Nat) (body : Nat → σ → σ) (init : σ) : σ :=
  (List.range n).foldl (fun acc ii => body ii acc) init

/-- Modelled from the spec: the enumeration `BflyCamera::pixelFormat` is declared in the
device library's header, which is not in the source tree.  The spec's data model gives a
closed enumeration of `MONO8` and `RGB8`; every other value a device may report is `other`. -/
inductive pixelFormat where
  | MONO8
  | RGB8
  | other (raw : Int)
deriving DecidableEq, Repr

/-- The strings of `sensor_msgs::image_encodings`. -/
def image_encodings.MONO8 : String := "mono8"

/-- The strings of `sensor_msgs::image_encodings`. -/
def image_encodings.RGB8 : String := "rgb8"

/-- The message `std_msgs::Header`: a 32-bit sequence number, a time stamp and a frame name. -/
structure Header where
  seq : Nat := 0
  stamp : Nat := 0
  frame_id : String := ""
deriving DecidableEq, Repr

/-- The member `image_`, a `cv_bridge::CvImage`. -/
structure CvImage where
  header : Header := {}
  encoding : String := ""
  image : Mat := Mat.empty
deriving DecidableEq, Repr

/-- The message `sensor_msgs::Image` that `CvImage::toImageMsg` builds. -/
structure ImageMsg where
  header : Header
  height : Nat
  width : Nat
  encoding : String
  data : List Elem
deriving DecidableEq, Repr

/-- The conversion `image_.toImageMsg()`. -/
def CvImage.toImageMsg (im : CvImage) : ImageMsg :=
  { header := im.header, height := im.image.rows, width := im.image.cols,
    encoding := im.encoding, data := im.image.data }

/-- The message `sensor_msgs::RegionOfInterest`. -/
structure RegionOfInterest where
  x_offset : Nat := 0
  y_offset : Nat := 0
  height : Nat := 0
  width : Nat := 0
  do_rectify : Bool := false
deriving DecidableEq, Repr

/-- Modelled from the spec: the message `sensor_msgs::CameraInfo` is declared outside the
source tree.  The spec's data model gives it 5 distortion slots, 9 intrinsic slots and 12
projection slots, and its request boundary gives `R` 12 values. -/
structure CameraInfo where
  header : Header := {}
  height : Nat := 0
  width : Nat := 0
  distortion_model : String := ""
  D : FixedArray 5 := fun _ => 0
  K : FixedArray 9 := fun _ => 0
  R : FixedArray 12 := fun _ => 0
  P : FixedArray 12 := fun _ => 0
  binning_x : Nat := 0
  binning_y : Nat := 0
  roi : RegionOfInterest := {}

/-- What a `cv::FileStorage` file holds: named strings and named matrices, in the order written. -/
structure FileStorage where
  strings : List (String × String) := []
  mats : List (String × Mat) := []
deriving DecidableEq, Repr

namespace FileStorage

/-- The read `fs[name] >> m`: the matrix stored under `name`; OpenCV gives the
default `cv::Mat()` when the file has no such entry. -/
def readMat (fs : FileStorage) (name : String) : Mat :=
  match fs.mats.lookup name with
  | some m => m
  | none => Mat.empty

/-- The write `fs << name << text`. -/
def writeString (fs : FileStorage) (name text : String) : FileStorage :=
  { fs with strings := fs.strings ++ [(name, text)] }

/-- The write `fs << name << m`. -/
def writeMat (fs : FileStorage) (name : String) (m : Mat) : FileStorage :=
  { fs with mats := fs.mats ++ [(name, m)] }

/-- The names of the matrix entries of a file. -/
def matNames (fs : FileStorage) : List String := fs.mats.map Prod.fst

end FileStorage

/-- Everything outside the node that its methods read or change. -/
structure World where
  /-- result of `camera_->open()` -/
  open_ok : Bool
  /-- result of `camera_->configure(video_mode, pixel_format)` -/
  configure_ok : Bool
  /-- result of `camera_->startAcquisition()` -/
  start_ok : Bool
  /-- the frame the `k`-th call of `camera_->getCurrentImage` delivers -/
  frames : Nat → Mat
  /-- number of calls of `camera_->getCurrentImage` so far -/
  grabs : Nat
  /-- result of `camera_->getPixelFormat()` -/
  pixel_format : pixelFormat
  /-- the `k`-th reading of `ros::Time::now()` -/
  clock : Nat → Nat
  /-- number of readings of `ros::Time::now()` so far -/
  ticks : Nat
  /-- the text `asctime(localtime(&raw_time))` -/
  wall : String
  /-- the files that can be opened for reading, by path, with their contents -/
  files : String → Option FileStorage
  /-- whether the file at a path can be opened for writing -/
  writable : String → Bool
  /-- the messages published on `image_raw`, oldest first -/
  image_raw : List ImageMsg
  /-- the messages published on `camera_info`, oldest first -/
  camera_info : List CameraInfo

/-- The members of `BflyCameraNode` that its methods use. -/
structure BflyCameraNode where
  run_mode_ : Int
  rate_ : Int
  camera_frame_name_ : String
  camera_info_file_ : String
  image_ : CvImage
  camera_info_msg_ : CameraInfo
  matD : Mat
  matK : Mat
  matP : Mat

/-- The switch of `publish` on the device's pixel format. -/
def encodingOf (pxf : pixelFormat) : String :=
  match pxf with
  | pixelFormat.MONO8 => image_encodings.MONO8
  | pixelFormat.RGB8 => image_encodings.RGB8
  | _ => image_encodings.MONO8

/-- The loop `for ii < 5: camera_info_msg_.D[ii] = matD.at<double>(ii)`. -/
def copyD (matD : Mat) (D : FixedArray 5) : FixedArray 5 :=
  forLoop 5 (fun ii D => D.set ii (matD.atIdx ii)) D

/-- The loops `for ii < 3: for jj < 3: camera_info_msg_.K[ii*3+jj] = matK.at<double>(ii,jj)`. -/
def copyK (matK : Mat) (K : FixedArray 9) : FixedArray 9 :=
  forLoop 3 (fun ii K => forLoop 3 (fun jj K => K.set (ii * 3 + jj) (matK.atRC ii jj)) K) K

/-- The loops `for ii < 3: for jj < 4: camera_info_msg_.P[ii*3+jj] = matP.at<double>(ii,jj)`. -/
def copyP (matP : Mat) (P : FixedArray 12) : FixedArray 12 :=
  forLoop 3 (fun ii P => forLoop 4 (fun jj P => P.set (ii * 3 + jj) (matP.atRC ii jj)) P) P

/-- What a service callback leaves behind: its return value, the reply it filled in,
the node and the world. -/
structure Outcome (ρ : Type) where
  ret : Bool
  reply : ρ
  node : BflyCameraNode
  world : World

/-- The request of the service `ptgrey_bfly_camera::ImageAsService`. -/
structure ImageAsServiceRequest where
  num_images : Nat
deriving DecidableEq, Repr

/-- The reply of the service `ptgrey_bfly_camera::ImageAsService`. -/
structure ImageAsServiceResponse where
  width : Nat := 0
  height : Nat := 0
deriving DecidableEq, Repr

/-- The request of the service `sensor_msgs::SetCameraInfo`. -/
structure SetCameraInfoRequest where
  camera_info : CameraInfo

/-- Modelled from the spec: the reply of the service `sensor_msgs::SetCameraInfo` is declared
outside the source tree.  The spec's request boundary gives it a boolean `success` and an
integer status, which the source calls `status_message`. -/
structure SetCameraInfoResponse where
  success : Bool := false
  status_message : Int := 0
deriving DecidableEq, Repr

/-- The parameters the constructor reads from the parameter server. -/
structure Params where
  run_mode : Int
  rate : Int
  frame_name : String
  camera_info_file : String
  video_mode : Int
  pixel_format : Int
deriving DecidableEq, Repr

namespace BflyCameraNode

/-- The method `BflyCameraNode::publish`. -/
def publish (s : BflyCameraNode) (w : World) : BflyCameraNode × World :=
  -- camera_->getCurrentImage(image_.image)
  let frame := w.frames w.grabs
  -- ros::Time ts = ros::Time::now()
  let ts := w.clock w.ticks
  let image : CvImage :=
    { header := { seq := (s.image_.header.seq + 1) % 2 ^ 32, stamp := ts,
                  frame_id := s.camera_frame_name_ },
      encoding := encodingOf w.pixel_format,
      image := frame }
  let info : CameraInfo :=
    { s.camera_info_msg_ with
      header := { seq := (s.camera_info_msg_.header.seq + 1) % 2 ^ 32, stamp := ts,
                  frame_id := s.camera_frame_name_ },
      height := frame.rows,
      width := frame.cols,
      distortion_model := "plumb_bob",
      D := copyD s.matD s.camera_info_msg_.D,
      K := copyK s.matK s.camera_info_msg_.K,
      P := copyP s.matP s.camera_info_msg_.P,
      binning_x := 0,
      binning_y := 0,
      roi := { s.camera_info_msg_.roi with width := 0, height := 0 } }
  ({ s with image_ := image, camera_info_msg_ := info },
   { w with grabs := w.grabs + 1, ticks := w.ticks + 1,
            image_raw := w.image_raw ++ [image.toImageMsg],
            camera_info := w.camera_info ++ [info] })

/-- The method `BflyCameraNode::setCalibrationFromFile`: its return value and the node after
the call.  Opening a file for reading changes nothing outside the node. -/
def setCalibrationFromFile (s : BflyCameraNode) (w : World) : Bool × BflyCameraNode :=
  -- calibration_file_.open(camera_info_file_, cv::FileStorage::READ)
  match w.files s.camera_info_file_ with
  | some calibration_file_ =>
      (true, { s with matD := calibration_file_.readMat "MatrixD",
                      matK := calibration_file_.readMat "MatrixK",
                      matP := calibration_file_.readMat "MatrixP" })
  | none => (false, s)

/-- The method `BflyCameraNode::imageServiceCallback`. -/
def imageServiceCallback (s : BflyCameraNode) (w : World)
    (_request : ImageAsServiceRequest) (_reply : ImageAsServiceResponse) :
    Outcome ImageAsServiceResponse :=
  let sw := forLoop _request.num_images (fun _ sw => sw.1.publish sw.2) (s, w)
  { ret := true,
    reply := { _reply with width := sw.1.image_.image.cols, height := sw.1.image_.image.rows },
    node := sw.1,
    world := sw.2 }

/-- The method `BflyCameraNode::SetCameraInfoServiceCallback`. -/
def SetCameraInfoServiceCallback (s : BflyCameraNode) (w : World)
    (_request : SetCameraInfoRequest) (_reply : SetCameraInfoResponse) :
    Outcome SetCameraInfoResponse :=
  -- calibration_file_.open(camera_info_file_, cv::FileStorage::WRITE)
  if !w.writable s.camera_info_file_ then
    { ret := false,
      reply := { _reply with success := false, status_message := -1 },
      node := s,
      world := w }
  else
    let f0 : FileStorage := {}
    let f1 := f0.writeString "date" w.wall
    let matD := Mat.ofValues 5 1
      [_request.camera_info.D 0, _request.camera_info.D 1, _request.camera_info.D 2,
       _request.camera_info.D 3, _request.camera_info.D 4]
    let f2 := f1.writeMat "paramsD" matD
    let matK := Mat.ofValues 3 3
      [_request.camera_info.K 0, _request.camera_info.K 1, _request.camera_info.K 2,
       _request.camera_info.K 3, _request.camera_info.K 4, _request.camera_info.K 5,
       _request.camera_info.K 6, _request.camera_info.K 7, _request.camera_info.K 8]
    let f3 := f2.writeMat "matrixK" matK
    let matP := Mat.ofValues 3 4
      [_request.camera_info.R 0, _request.camera_info.R 1, _request.camera_info.R 2,
       _request.camera_info.R 3, _request.camera_info.R 4, _request.camera_info.R 5,
       _request.camera_info.R 6, _request.camera_info.R 7, _request.camera_info.R 8,
       _request.camera_info.R 9, _request.camera_info.R 10, _request.camera_info.R 11]
    let f4 := f3.writeMat "matrixP" matP
    -- calibration_file_.release()
    { ret := true,
      reply := { _reply with success := true, status_message := 1 },
      node := { s with matD := matD, matK := matK, matP := matP },
      world := { w with files := fun path =>
                   if path = s.camera_info_file_ then some f4 else w.files path } }

/-- The constructor `BflyCameraNode::BflyCameraNode`.  `junk` is what the freshly allocated
matrices hold.  The messages start default-constructed: zero counters, empty strings, zero
arrays and an empty image. -/
def new (params : Params) (junk : Nat → Elem) (w : World) : BflyCameraNode :=
  let s : BflyCameraNode :=
    { run_mode_ := params.run_mode,
      rate_ := params.rate,
      camera_frame_name_ := params.frame_name,
      camera_info_file_ := params.camera_info_file,
      image_ := {},
      camera_info_msg_ := {},
      matD := Mat.create 5 1 junk,
      matK := Mat.create 3 3 junk,
      matP := Mat.create 3 4 junk }
  if !w.open_ok then s
  else if !w.configure_ok then s
  else if !w.start_ok then s
  else (s.setCalibrationFromFile w).2

end BflyCameraNode

/-- The three matrices in memory have the shapes the constructor gives them: 5x1, 3x3 and
3x4, each with all its elements. -/
def BflyCameraNode.Shaped (s : BflyCameraNode) : Prop :=
  s.matD.HasShape 5 1 ∧ s.matK.HasShape 3 3 ∧ s.matP.HasShape 3 4

instance (s : BflyCameraNode) : Decidable s.Shaped := by
  unfold BflyCameraNode.Shaped; infer_instance

/-- Every matrix read of `publish` falls within the stored data: `matD.at<double>(ii)` for
`ii < 5`, `matK.at<double>(ii, jj)` for `ii, jj < 3` and `matP.at<double>(ii, jj)` for
`ii < 3`, `jj < 4`.  Outside this condition the source's `publish` is undefined. -/
def BflyCameraNode.ReadsInRange (s : BflyCameraNode) : Prop :=
  (∀ ii : Nat, ii < 5 → ii < s.matD.data.length) ∧
  (∀ ii jj : Nat, ii < 3 → jj < 3 → ii * s.matK.cols + jj < s.matK.data.length) ∧
  (∀ ii jj : Nat, ii < 3 → jj < 4 → ii * s.matP.cols + jj < s.matP.data.length)

/-- The node states that arise: the constructed node, and whatever a call of one of the four
methods makes of such a state, in any world.  A call that runs `publish` counts only from a
state whose matrices have their shapes, where the source's matrix reads are defined. -/
inductive Reachable : BflyCameraNode → Prop
  | constructed (params : Params) (junk : Nat → Elem) (w : World) :
      Reachable (BflyCameraNode.new params junk w)
  | publish {s : BflyCameraNode} (w : World) :
      Reachable s → s.Shaped → Reachable (s.publish w).1
  | imageService {s : BflyCameraNode} (w : World) (req : ImageAsServiceRequest)
      (rep : ImageAsServiceResponse) :
      Reachable s → (0 < req.num_images → s.Shaped) →
      Reachable (s.imageServiceCallback w req rep).node
  | loadCalibration {s : BflyCameraNode} (w : World) :
      Reachable s → Reachable (s.setCalibrationFromFile w).2
  | setCameraInfo {s : BflyCameraNode} (w : World) (req : SetCameraInfoRequest)
      (rep : SetCameraInfoResponse) :
      Reachable s → Reachable (s.SetCameraInfoServiceCallback w req rep).node

/-- The entry in row `i` and column `j` of a matrix, when the matrix has one. -/
def Mat.entry? (m : Mat) (i j : Nat) : Option Elem :=
  if i < m.rows ∧ j < m.cols then m.data[i * m.cols + j]? else none

/-- The two header counters of a node agree. -/
def SeqAligned (s : BflyCameraNode) : Prop :=
  s.image_.header.seq = s.camera_info_msg_.header.seq

/-- One capture cycle on a node and world taken together. -/
def publishCycle (sw : BflyCameraNode × World) : BflyCameraNode × World :=
  sw.1.publish sw.2

/-! ## Sample data -/

/-- The calibration file of the spec's example: zero distortion, identity intrinsics and the
projection `[[1,0,0,0],[0,1,0,0],[0,0,1,0]]`. -/
def exampleFile : FileStorage :=
  { strings := [],
    mats := [("MatrixD", ⟨5, 1, [0, 0, 0, 0, 0]⟩),
             ("MatrixK", ⟨3, 3, [1, 0, 0, 0, 1, 0, 0, 0, 1]⟩),
             ("MatrixP", ⟨3, 4, [1, 0, 0, 0, 0, 1, 0, 0, 0, 0, 1, 0]⟩)] }

/-- A frame of 480 rows and 640 columns. -/
def exampleFrame : Mat := ⟨480, 640, List.replicate (480 * 640) 0⟩

/-- A world whose camera works and delivers 480 x 640 frames, whose clock reads 1000, 1001, ...,
and where `calib.yaml` holds `exampleFile` and can be written. -/
def exampleWorld : World :=
  { open_ok := true, configure_ok := true, start_ok := true,
    frames := fun _ => exampleFrame, grabs := 0,
    pixel_format := pixelFormat.RGB8,
    clock := fun k => 1000 + k, ticks := 0,
    wall := "Thu Jan  1 00:00:00 1970\n",
    files := fun path => if path = "calib.yaml" then some exampleFile else none,
    writable := fun path => path = "calib.yaml",
    image_raw := [], camera_info := [] }

/-- The world `exampleWorld` with no file that can be read or written. -/
def lockedWorld : World :=
  { exampleWorld with files := fun _ => none, writable := fun _ => false }

/-- Parameters naming the frame `camera` and the file `calib.yaml`. -/
def exampleParams : Params :=
  { run_mode := 0, rate := 10, frame_name := "camera", camera_info_file := "calib.yaml",
    video_mode := 0, pixel_format := 1 }

/-- The node constructed in `exampleWorld`: it has loaded `exampleFile`. -/
def exampleNode : BflyCameraNode := BflyCameraNode.new exampleParams (fun _ => 0) exampleWorld

/-- A request carrying `D = 1..5`, `K = 11..19` and `R = 21..32`. -/
def exampleRequest : SetCameraInfoRequest :=
  { camera_info := { D := fun k => 1 + k.val, K := fun k => 11 + k.val,
                     R := fun k => 21 + k.val } }

/-- The outcome of the replace-calibration request on the example node in the example world,
where the calibration file can be written. -/
def exampleSaved : Outcome SetCameraInfoResponse :=
  exampleNode.SetCameraInfoServiceCallback exampleWorld exampleRequest {}

/-! ## Auxiliary facts -/

theorem forLoop_succ {σ : Type} (n : Nat) (body : Nat → σ → σ) (init : σ) :
    forLoop (n + 1) body init = body n (forLoop n body init) := by
  simp [forLoop, List.range_succ, List.foldl_append]

/-- With the three shapes, every matrix read of `publish` is within the data. -/
theorem readsInRange_of_shaped (s : BflyCameraNode) (h : s.Shaped) : s.ReadsInRange := by
  obtain ⟨⟨_, _, hDl⟩, ⟨_, hKc, hKl⟩, ⟨_, hPc, hPl⟩⟩ := h
  refine ⟨?_, ?_, ?_⟩
  · intro ii hii
    rw [hDl]; omega
  · intro ii jj hii hjj
    rw [hKc, hKl]; omega
  · intro ii jj hii hjj
    rw [hPc, hPl]; omega

/-- What `publish` appends to the two channels: the node's image and calibration message. -/
theorem publish_emits (s : BflyCameraNode) (w : World) :
    (s.publish w).2.image_raw = w.image_raw ++ [(s.publish w).1.image_.toImageMsg] ∧
    (s.publish w).2.camera_info = w.camera_info ++ [(s.publish w).1.camera_info_msg_] :=
  ⟨rfl, rfl⟩

/-! ## The calibration record built by `publish` -/

/-- C1, evaluated on the code: with the projection `[[1,0,0,0],[0,1,0,0],[0,0,1,0]]` in memory
and a fresh calibration message, the one record `publish` emits has the projection slots
`[1,0,0,0,1,0,0,0,1,0,0,0]`, not the row-major `[1,0,0,0,0,1,0,0,0,0,1,0]`: slot `4*1+1`
holds 0 while the entry in row 1, column 1 is 1. -/
theorem publish_projection_stride_three :
    exampleNode.matP = ⟨3, 4, [1, 0, 0, 0, 0, 1, 0, 0, 0, 0, 1, 0]⟩ ∧
    (exampleNode.publish exampleWorld).2.camera_info =
      [(exampleNode.publish exampleWorld).1.camera_info_msg_] ∧
    List.ofFn (exampleNode.publish exampleWorld).1.camera_info_msg_.P =
      [1, 0, 0, 0, 1, 0, 0, 0, 1, 0, 0, 0] ∧
    List.ofFn (exampleNode.publish exampleWorld).1.camera_info_msg_.P ≠
      [1, 0, 0, 0, 0, 1, 0, 0, 0, 0, 1, 0] ∧
    exampleNode.matP.entry? 1 1 = some 1 ∧
    (exampleNode.publish exampleWorld).1.camera_info_msg_.P ⟨4 * 1 + 1, by decide⟩ = 0 := by
  refine ⟨rfl, rfl, rfl, ?_, rfl, rfl⟩
  have h : List.ofFn (exampleNode.publish exampleWorld).1.camera_info_msg_.P =
      [1, 0, 0, 0, 1, 0, 0, 0, 1, 0, 0, 0] := rfl
  rw [h]
  decide

/-- C8: with the three matrices in their shapes (so that every matrix read of `publish` is
within the data), whatever pixel format the camera reports, the image `publish` emits is
encoded `rgb8` when the format is `RGB8` and `mono8` for every other format, `MONO8` and
unrecognised values alike; it is always one of the two encodings, which differ. -/
theorem publish_encoding (s : BflyCameraNode) (w : World) (hshape : s.Shaped) :
    s.ReadsInRange ∧
    (s.publish w).2.image_raw = w.image_raw ++ [(s.publish w).1.image_.toImageMsg] ∧
    (s.publish w).1.image_.toImageMsg.encoding =
      (if w.pixel_format = pixelFormat.RGB8 then image_encodings.RGB8
       else image_encodings.MONO8) ∧
    ((s.publish w).1.image_.toImageMsg.encoding = image_encodings.MONO8 ∨
     (s.publish w).1.image_.toImageMsg.encoding = image_encodings.RGB8) ∧
    image_encodings.MONO8 ≠ image_encodings.RGB8 := by
  refine ⟨readsInRange_of_shaped s hshape, rfl, ?_, ?_, by decide⟩
  · show encodingOf w.pixel_format = _
    cases w.pixel_format <;> simp [encodingOf]
  · show encodingOf w.pixel_format = _ ∨ encodingOf w.pixel_format = _
    cases w.pixel_format <;> simp [encodingOf]

/-- C8 at a concrete input: the example node publishing from a camera that reports the
unrecognised format 7, and from one that reports `RGB8`. -/
theorem publish_encoding_witness :
    exampleNode.Shaped ∧
    (exampleNode.publish
      { exampleWorld with pixel_format := pixelFormat.other 7 }).1.image_.toImageMsg.encoding =
        "mono8" ∧
    (exampleNode.publish exampleWorld).1.image_.toImageMsg.encoding = "rgb8" :=
  ⟨by decide,
    (publish_encoding exampleNode { exampleWorld with pixel_format := pixelFormat.other 7 }
      (by decide)).2.2.1.trans rfl,
    (publish_encoding exampleNode exampleWorld (by decide)).2.2.1.trans rfl⟩

theorem seqAligned_publish (s : BflyCameraNode) (w : World) (h : SeqAligned s) :
    SeqAligned (s.publish w).1 := by
  unfold SeqAligned at h
  show (s.image_.header.seq + 1) % 2 ^ 32 = (s.camera_info_msg_.header.seq + 1) % 2 ^ 32
  rw [h]

theorem seqAligned_publish_loop (n : Nat) (s : BflyCameraNode) (w : World) (h : SeqAligned s) :
    SeqAligned (forLoop n (fun _ sw => sw.1.publish sw.2) (s, w)).1 := by
  induction n with
  | zero => exact h
  | succ n ih =>
    rw [forLoop_succ]
    exact seqAligned_publish _ _ ih

theorem seqAligned_load (s : BflyCameraNode) (w : World) (h : SeqAligned s) :
    SeqAligned (s.setCalibrationFromFile w).2 := by
  unfold BflyCameraNode.setCalibrationFromFile
  cases w.files s.camera_info_file_ <;> exact h

theorem seqAligned_setCameraInfo (s : BflyCameraNode) (w : World) (req : SetCameraInfoRequest)
    (rep : SetCameraInfoResponse) (h : SeqAligned s) :
    SeqAligned (s.SetCameraInfoServiceCallback w req rep).node := by
  unfold BflyCameraNode.SetCameraInfoServiceCallback
  cases w.writable s.camera_info_file_ <;> exact h

theorem seqAligned_new (params : Params) (junk : Nat → Elem) (w : World) :
    SeqAligned (BflyCameraNode.new params junk w) := by
  unfold BflyCameraNode.new
  cases w.open_ok <;> cases w.configure_ok <;> cases w.start_ok <;>
    first
      | rfl
      | exact seqAligned_load _ _ rfl

/-- Every state that arises has its two header counters equal. -/
theorem seqAligned_of_reachable (s : BflyCameraNode) (h : Reachable s) : SeqAligned s := by
  induction h with
  | constructed params junk w => exact seqAligned_new params junk w
  | publish w _ _ ih => exact seqAligned_publish _ w ih
  | imageService w req rep _ _ ih => exact seqAligned_publish_loop _ _ w ih
  | loadCalibration w _ ih => exact seqAligned_load _ w ih
  | setCameraInfo w req rep _ ih => exact seqAligned_setCameraInfo _ w req rep ih

/-- C3: in every state that the constructed node reaches through calls of `publish`,
`imageServiceCallback`, `setCalibrationFromFile` and `SetCameraInfoServiceCallback`, and in
which the three matrices have their shapes (so that every matrix read of `publish` is within
the data), a call of `publish` reads the clock once and emits one image and one calibration
record whose headers carry the same sequence number (the previous one plus 1, modulo 2^32),
the same time stamp (that clock reading) and the same frame name. -/
theorem publish_headers_aligned (s : BflyCameraNode) (hs : Reachable s) (hshape : s.Shaped)
    (w : World) :
    s.ReadsInRange ∧
    (s.publish w).2.image_raw = w.image_raw ++ [(s.publish w).1.image_.toImageMsg] ∧
    (s.publish w).2.camera_info = w.camera_info ++ [(s.publish w).1.camera_info_msg_] ∧
    (s.publish w).2.ticks = w.ticks + 1 ∧
    (s.publish w).1.image_.toImageMsg.header.seq = (s.image_.header.seq + 1) % 2 ^ 32 ∧
    (s.publish w).1.image_.toImageMsg.header.seq =
      (s.publish w).1.camera_info_msg_.header.seq ∧
    (s.publish w).1.image_.toImageMsg.header.stamp = w.clock w.ticks ∧
    (s.publish w).1.camera_info_msg_.header.stamp = w.clock w.ticks ∧
    (s.publish w).1.image_.toImageMsg.header.frame_id = s.camera_frame_name_ ∧
    (s.publish w).1.camera_info_msg_.header.frame_id = s.camera_frame_name_ ∧
    (s.publish w).1.image_.toImageMsg.header = (s.publish w).1.camera_info_msg_.header :=
  have h1 : (s.publish w).1.image_.toImageMsg.header.seq =
      (s.publish w).1.camera_info_msg_.header.seq :=
    seqAligned_publish s w (seqAligned_of_reachable s hs)
  have h2 : (s.publish w).1.image_.toImageMsg.header =
      (s.publish w).1.camera_info_msg_.header := by
    have e : (s.image_.header.seq + 1) % 2 ^ 32 =
        (s.camera_info_msg_.header.seq + 1) % 2 ^ 32 := h1
    show ({ seq := (s.image_.header.seq + 1) % 2 ^ 32, stamp := w.clock w.ticks,
            frame_id := s.camera_frame_name_ } : Header) =
      { seq := (s.camera_info_msg_.header.seq + 1) % 2 ^ 32, stamp := w.clock w.ticks,
        frame_id := s.camera_frame_name_ }
    rw [e]
  ⟨readsInRange_of_shaped s hshape, rfl, rfl, rfl, rfl, h1, rfl, rfl, rfl, rfl, h2⟩

/-- C3 at a concrete input: the `publish` of the example node that follows a first `publish`,
a load that misses its file and a three-frame capture request. -/
theorem publish_headers_aligned_witness :
    Reachable (((exampleNode.publish exampleWorld).1.setCalibrationFromFile
      lockedWorld).2.imageServiceCallback exampleWorld ⟨3⟩ {}).node ∧
    (((exampleNode.publish exampleWorld).1.setCalibrationFromFile
      lockedWorld).2.imageServiceCallback exampleWorld ⟨3⟩ {}).node.Shaped ∧
    ((((exampleNode.publish exampleWorld).1.setCalibrationFromFile
      lockedWorld).2.imageServiceCallback exampleWorld ⟨3⟩ {}).node.publish
        exampleWorld).1.image_.toImageMsg.header = ⟨5, 1000, "camera"⟩ ∧
    ((((exampleNode.publish exampleWorld).1.setCalibrationFromFile
      lockedWorld).2.imageServiceCallback exampleWorld ⟨3⟩ {}).node.publish
        exampleWorld).1.camera_info_msg_.header = ⟨5, 1000, "camera"⟩ :=
  have hr : Reachable (((exampleNode.publish exampleWorld).1.setCalibrationFromFile
      lockedWorld).2.imageServiceCallback exampleWorld ⟨3⟩ {}).node :=
    Reachable.imageService exampleWorld ⟨3⟩ {}
      (Reachable.loadCalibration lockedWorld
        (Reachable.publish exampleWorld
          (Reachable.constructed exampleParams (fun _ => 0) exampleWorld) (by decide)))
      (fun _ => by decide)
  have hsh : (((exampleNode.publish exampleWorld).1.setCalibrationFromFile
      lockedWorld).2.imageServiceCallback exampleWorld ⟨3⟩ {}).node.Shaped := by decide
  have h := publish_headers_aligned _ hr hsh exampleWorld
  ⟨hr, hsh, rfl, h.2.2.2.2.2.2.2.2.2.2 ▸ rfl⟩

/-! ## The capture request -/

/-- The loop of `imageServiceCallback` is `n` capture cycles one after the other. -/
theorem publish_loop_iterate (n : Nat) (s : BflyCameraNode) (w : World) :
    forLoop n (fun _ sw => sw.1.publish sw.2) (s, w) = publishCycle^[n] (s, w) := by
  induction n with
  | zero => rfl
  | succ n ih => rw [forLoop_succ, Function.iterate_succ_apply', ih]; rfl

/-- What `n` capture cycles do to the counters and the channels. -/
theorem publish_loop_counts (n : Nat) (s : BflyCameraNode) (w : World) :
    (publishCycle^[n] (s, w)).2.grabs = w.grabs + n ∧
    (publishCycle^[n] (s, w)).2.image_raw.length = w.image_raw.length + n ∧
    (publishCycle^[n] (s, w)).2.camera_info.length = w.camera_info.length + n ∧
    (publishCycle^[n] (s, w)).1.image_.header.seq % 2 ^ 32 =
      (s.image_.header.seq + n) % 2 ^ 32 ∧
    (publishCycle^[n] (s, w)).1.camera_info_msg_.header.seq % 2 ^ 32 =
      (s.camera_info_msg_.header.seq + n) % 2 ^ 32 := by
  induction n with
  | zero => exact ⟨rfl, rfl, rfl, rfl, rfl⟩
  | succ n ih =>
    obtain ⟨h1, h2, h3, h4, h5⟩ := ih
    rw [Function.iterate_succ_apply']
    refine ⟨?_, ?_, ?_, ?_, ?_⟩
    · show (publishCycle^[n] (s, w)).2.grabs + 1 = _
      rw [h1]; rfl
    · show ((publishCycle^[n] (s, w)).2.image_raw ++ [_]).length = _
      rw [List.length_append, h2]; rfl
    · show ((publishCycle^[n] (s, w)).2.camera_info ++ [_]).length = _
      rw [List.length_append, h3]; rfl
    · show ((publishCycle^[n] (s, w)).1.image_.header.seq + 1) % 2 ^ 32 % 2 ^ 32 = _
      rw [Nat.mod_mod, Nat.add_mod, h4]
      omega
    · show ((publishCycle^[n] (s, w)).1.camera_info_msg_.header.seq + 1) % 2 ^ 32 % 2 ^ 32 = _
      rw [Nat.mod_mod, Nat.add_mod, h5]
      omega

/-- A counter below 2^32 stays below 2^32 through capture cycles. -/
theorem publish_loop_seq_lt (n : Nat) (s : BflyCameraNode) (w : World)
    (hi : s.image_.header.seq < 2 ^ 32) (hc : s.camera_info_msg_.header.seq < 2 ^ 32) :
    (publishCycle^[n] (s, w)).1.image_.header.seq < 2 ^ 32 ∧
    (publishCycle^[n] (s, w)).1.camera_info_msg_.header.seq < 2 ^ 32 := by
  induction n with
  | zero => exact ⟨hi, hc⟩
  | succ n _ =>
    rw [Function.iterate_succ_apply']
    exact ⟨Nat.mod_lt _ (by decide), Nat.mod_lt _ (by decide)⟩

/-- Loading the calibration leaves the held image alone. -/
theorem setCalibrationFromFile_image (s : BflyCameraNode) (w : World) :
    (s.setCalibrationFromFile w).2.image_ = s.image_ := by
  unfold BflyCameraNode.setCalibrationFromFile
  split <;> rfl

/-- Capture cycles leave the three matrices alone. -/
theorem publish_loop_mats (n : Nat) (s : BflyCameraNode) (w : World) :
    (publishCycle^[n] (s, w)).1.matD = s.matD ∧
    (publishCycle^[n] (s, w)).1.matK = s.matK ∧
    (publishCycle^[n] (s, w)).1.matP = s.matP := by
  induction n with
  | zero => exact ⟨rfl, rfl, rfl⟩
  | succ n ih =>
    rw [Function.iterate_succ_apply']
    exact ih

/-- The constructed node holds an empty image. -/
theorem new_image_empty (params : Params) (junk : Nat → Elem) (w : World) :
    (BflyCameraNode.new params junk w).image_.image = Mat.empty := by
  unfold BflyCameraNode.new
  cases w.open_ok <;> cases w.configure_ok <;> cases w.start_ok <;>
    first
      | rfl
      | (simp only [Bool.not_true, Bool.false_eq_true, if_false]
         rw [setCalibrationFromFile_image])

/-- C6: from a state whose 32-bit counters are in range and, when `n` is not 0, whose three
matrices have their shapes (so that every matrix read of every cycle is within the data),
`imageServiceCallback` with `num_images = n` runs exactly `n` capture cycles: `n` frames are
taken from the camera, `n` messages are added to each channel, both sequence counters advance
by `n` modulo 2^32, and the reply carries the columns and rows of the image then held, which
for `n > 0` is the last frame taken.  With `n = 0`, from any state, node and world are left as
they were and the reply carries the dimensions of the image already held, which are 0 and 0
for the node as constructed. -/
theorem imageServiceCallback_cycles (s : BflyCameraNode) (w : World) (n : Nat)
    (rep : ImageAsServiceResponse)
    (hi : s.image_.header.seq < 2 ^ 32) (hc : s.camera_info_msg_.header.seq < 2 ^ 32)
    (hshape : 0 < n → s.Shaped) :
    (0 < n → ∀ k : Nat, (publishCycle^[k] (s, w)).1.ReadsInRange) ∧
    ((s.imageServiceCallback w ⟨n⟩ rep).node, (s.imageServiceCallback w ⟨n⟩ rep).world) =
      publishCycle^[n] (s, w) ∧
    (s.imageServiceCallback w ⟨n⟩ rep).world.grabs = w.grabs + n ∧
    (s.imageServiceCallback w ⟨n⟩ rep).world.image_raw.length = w.image_raw.length + n ∧
    (s.imageServiceCallback w ⟨n⟩ rep).world.camera_info.length = w.camera_info.length + n ∧
    (s.imageServiceCallback w ⟨n⟩ rep).node.image_.header.seq =
      (s.image_.header.seq + n) % 2 ^ 32 ∧
    (s.imageServiceCallback w ⟨n⟩ rep).node.camera_info_msg_.header.seq =
      (s.camera_info_msg_.header.seq + n) % 2 ^ 32 ∧
    (s.imageServiceCallback w ⟨n⟩ rep).ret = true ∧
    (s.imageServiceCallback w ⟨n⟩ rep).reply.width =
      (s.imageServiceCallback w ⟨n⟩ rep).node.image_.image.cols ∧
    (s.imageServiceCallback w ⟨n⟩ rep).reply.height =
      (s.imageServiceCallback w ⟨n⟩ rep).node.image_.image.rows ∧
    (0 < n →
      (s.imageServiceCallback w ⟨n⟩ rep).node.image_.image = w.frames (w.grabs + n - 1)) ∧
    (s.imageServiceCallback w ⟨0⟩ rep).node = s ∧
    (s.imageServiceCallback w ⟨0⟩ rep).world = w ∧
    (s.imageServiceCallback w ⟨0⟩ rep).reply.width = s.image_.image.cols ∧
    (s.imageServiceCallback w ⟨0⟩ rep).reply.height = s.image_.image.rows ∧
    (∀ (params : Params) (junk : Nat → Elem) (w0 : World),
      ((BflyCameraNode.new params junk w0).imageServiceCallback w ⟨0⟩ rep).reply = ⟨0, 0⟩) := by
  have hnode : ∀ k : Nat, (s.imageServiceCallback w ⟨k⟩ rep).node =
      (publishCycle^[k] (s, w)).1 := by
    intro k
    show (forLoop k (fun _ sw => sw.1.publish sw.2) (s, w)).1 = _
    rw [publish_loop_iterate]
  have hworld : ∀ k : Nat, (s.imageServiceCallback w ⟨k⟩ rep).world =
      (publishCycle^[k] (s, w)).2 := by
    intro k
    show (forLoop k (fun _ sw => sw.1.publish sw.2) (s, w)).2 = _
    rw [publish_loop_iterate]
  obtain ⟨h1, h2, h3, h4, h5⟩ := publish_loop_counts n s w
  obtain ⟨l1, l2⟩ := publish_loop_seq_lt n s w hi hc
  rw [Nat.mod_eq_of_lt l1] at h4
  rw [Nat.mod_eq_of_lt l2] at h5
  refine ⟨?_, ?_, ?_, ?_, ?_, ?_, ?_, rfl, rfl, rfl, ?_, rfl, rfl, rfl, rfl, ?_⟩
  · intro hn k
    obtain ⟨mD, mK, mP⟩ := publish_loop_mats k s w
    have hk : (publishCycle^[k] (s, w)).1.Shaped := by
      unfold BflyCameraNode.Shaped
      rw [mD, mK, mP]
      exact hshape hn
    exact readsInRange_of_shaped _ hk
  · rw [hnode, hworld]
  · rw [hworld, h1]
  · rw [hworld, h2]
  · rw [hworld, h3]
  · rw [hnode, h4]
  · rw [hnode, h5]
  · intro hn
    obtain ⟨m, rfl⟩ : ∃ m : Nat, n = m + 1 := ⟨n - 1, by omega⟩
    rw [hnode, Function.iterate_succ_apply']
    show (publishCycle^[m] (s, w)).2.frames (publishCycle^[m] (s, w)).2.grabs = _
    rw [(publish_loop_counts m s w).1]
    have hf : ∀ k : Nat, (publishCycle^[k] (s, w)).2.frames = w.frames := by
      intro k
      induction k with
      | zero => rfl
      | succ k ih => rw [Function.iterate_succ_apply']; exact ih
    rw [hf]
    rfl
  · intro params junk w0
    show ImageAsServiceResponse.mk (BflyCameraNode.new params junk w0).image_.image.cols
      (BflyCameraNode.new params junk w0).image_.image.rows = ⟨0, 0⟩
    rw [new_image_empty]
    rfl

/-- C6 at concrete inputs: three frames requested from the example node, and no frame
requested from the node whose matrices a load has left empty. -/
theorem imageServiceCallback_cycles_witness :
    exampleNode.image_.header.seq < 2 ^ 32 ∧
    exampleNode.camera_info_msg_.header.seq < 2 ^ 32 ∧
    exampleNode.Shaped ∧
    (exampleNode.imageServiceCallback exampleWorld ⟨3⟩ {}).reply = ⟨640, 480⟩ ∧
    (exampleNode.imageServiceCallback exampleWorld ⟨3⟩ {}).world.grabs = exampleWorld.grabs + 3 ∧
    (exampleNode.imageServiceCallback exampleWorld ⟨3⟩ {}).world.image_raw.length =
      exampleWorld.image_raw.length + 3 ∧
    (exampleNode.imageServiceCallback exampleWorld ⟨3⟩ {}).node.image_.header.seq =
      (exampleNode.image_.header.seq + 3) % 2 ^ 32 ∧
    (exampleNode.imageServiceCallback exampleWorld ⟨0⟩ {}).reply = ⟨0, 0⟩ ∧
    ((exampleSaved.node.setCalibrationFromFile exampleSaved.world).2.imageServiceCallback
      exampleSaved.world ⟨0⟩ {}).world.grabs = exampleSaved.world.grabs + 0 :=
  have h := imageServiceCallback_cycles exampleNode exampleWorld 3 {} (by decide) (by decide)
    (fun _ => by decide)
  have h0 := imageServiceCallback_cycles
    (exampleSaved.node.setCalibrationFromFile exampleSaved.world).2 exampleSaved.world 0 {}
    (by decide) (by decide) (fun hpos => absurd hpos (by decide))
  ⟨by decide, by decide, by decide, rfl, h.2.2.1, h.2.2.2.1, h.2.2.2.2.2.1, rfl, h0.2.2.1⟩

/-! ## Loading and replacing the calibration -/

/-- C7: when the calibration file cannot be opened for reading, `setCalibrationFromFile`
returns false and leaves the node, and with it the three matrices, exactly as it was. -/
theorem load_miss_keeps_matrices (s : BflyCameraNode) (w : World)
    (hmiss : w.files s.camera_info_file_ = none) :
    (s.setCalibrationFromFile w).1 = false ∧
    (s.setCalibrationFromFile w).2 = s ∧
    (s.setCalibrationFromFile w).2.matD = s.matD ∧
    (s.setCalibrationFromFile w).2.matK = s.matK ∧
    (s.setCalibrationFromFile w).2.matP = s.matP := by
  unfold BflyCameraNode.setCalibrationFromFile
  rw [hmiss]
  exact ⟨rfl, rfl, rfl, rfl, rfl⟩

/-- C7 at a concrete input: the example node in a world without its calibration file. -/
theorem load_miss_keeps_matrices_witness :
    lockedWorld.files exampleNode.camera_info_file_ = none ∧
    (exampleNode.setCalibrationFromFile lockedWorld).1 = false ∧
    (exampleNode.setCalibrationFromFile lockedWorld).2.matP =
      ⟨3, 4, [1, 0, 0, 0, 0, 1, 0, 0, 0, 0, 1, 0]⟩ :=
  have h := load_miss_keeps_matrices exampleNode lockedWorld rfl
  ⟨rfl, h.1, h.2.2.2.2.trans rfl⟩

/-- C5: `SetCameraInfoServiceCallback` replies success = true, status = 1 exactly when the
calibration file could be opened for writing and success = false, status = -1 exactly when it
could not; the reply is one of these two, whatever it held before. -/
theorem set_camera_info_reply (s : BflyCameraNode) (w : World) (req : SetCameraInfoRequest)
    (rep : SetCameraInfoResponse) :
    (((s.SetCameraInfoServiceCallback w req rep).reply.success = true ∧
        (s.SetCameraInfoServiceCallback w req rep).reply.status_message = 1) ↔
      w.writable s.camera_info_file_ = true) ∧
    (((s.SetCameraInfoServiceCallback w req rep).reply.success = false ∧
        (s.SetCameraInfoServiceCallback w req rep).reply.status_message = -1) ↔
      w.writable s.camera_info_file_ = false) ∧
    ((s.SetCameraInfoServiceCallback w req rep).reply = ⟨true, 1⟩ ∨
      (s.SetCameraInfoServiceCallback w req rep).reply = ⟨false, -1⟩) := by
  unfold BflyCameraNode.SetCameraInfoServiceCallback
  cases w.writable s.camera_info_file_ <;> simp

/-- C4 as amended: after `SetCameraInfoServiceCallback` the three matrices in memory are the
request's `D[0..4]`, `K[0..8]` and `R[0..11]` (as 5x1, 3x3 and 3x4 matrices in row-major
order) when the calibration file could be opened for writing, and are what they were before
the call when it could not. -/
theorem set_camera_info_matrices (s : BflyCameraNode) (w : World) (req : SetCameraInfoRequest)
    (rep : SetCameraInfoResponse) :
    ((s.SetCameraInfoServiceCallback w req rep).node.matD,
      (s.SetCameraInfoServiceCallback w req rep).node.matK,
      (s.SetCameraInfoServiceCallback w req rep).node.matP) =
    if w.writable s.camera_info_file_ = true then
      ((⟨5, 1, List.ofFn req.camera_info.D⟩ : Mat), (⟨3, 3, List.ofFn req.camera_info.K⟩ : Mat),
        (⟨3, 4, List.ofFn req.camera_info.R⟩ : Mat))
    else (s.matD, s.matK, s.matP) := by
  unfold BflyCameraNode.SetCameraInfoServiceCallback
  cases w.writable s.camera_info_file_
  · rfl
  · rfl

/-- C4, evaluated on the code: when the calibration file cannot be opened for writing, the
callback replies failure and the distortion matrix in memory is still the loaded
`[0,0,0,0,0]`, not the request's `[1,2,3,4,5]`. -/
theorem set_camera_info_unwritable_keeps_matrices :
    lockedWorld.writable exampleNode.camera_info_file_ = false ∧
    List.ofFn exampleRequest.camera_info.D = [1, 2, 3, 4, 5] ∧
    (exampleNode.SetCameraInfoServiceCallback lockedWorld exampleRequest {}).reply.success
      = false ∧
    (exampleNode.SetCameraInfoServiceCallback lockedWorld exampleRequest {}).node.matD =
      ⟨5, 1, [0, 0, 0, 0, 0]⟩ ∧
    (exampleNode.SetCameraInfoServiceCallback lockedWorld exampleRequest {}).node.matD ≠
      ⟨5, 1, List.ofFn exampleRequest.camera_info.D⟩ := by
  refine ⟨rfl, rfl, rfl, rfl, ?_⟩
  have h : (exampleNode.SetCameraInfoServiceCallback lockedWorld exampleRequest {}).node.matD =
      ⟨5, 1, [0, 0, 0, 0, 0]⟩ := rfl
  have h2 : List.ofFn exampleRequest.camera_info.D = [1, 2, 3, 4, 5] := rfl
  rw [h, h2]
  decide

/-- C2, evaluated on the code: the callback writes the file successfully, under the entry
names `paramsD`, `matrixK`, `matrixP`; `setCalibrationFromFile` on that file returns true
but finds none of `MatrixD`, `MatrixK`, `MatrixP` in it, and the three matrices in memory end
up empty instead of equal to the ones written; a node constructed afresh on that file ends up
with an empty distortion matrix as well. -/
theorem save_then_load_loses_matrices :
    exampleSaved.ret = true ∧
    exampleSaved.reply = ⟨true, 1⟩ ∧
    exampleSaved.node.matD = ⟨5, 1, [1, 2, 3, 4, 5]⟩ ∧
    exampleSaved.node.matK = ⟨3, 3, [11, 12, 13, 14, 15, 16, 17, 18, 19]⟩ ∧
    exampleSaved.node.matP = ⟨3, 4, [21, 22, 23, 24, 25, 26, 27, 28, 29, 30, 31, 32]⟩ ∧
    (exampleSaved.world.files exampleSaved.node.camera_info_file_).map FileStorage.matNames =
      some ["paramsD", "matrixK", "matrixP"] ∧
    (exampleSaved.world.files exampleSaved.node.camera_info_file_).map
        (fun f => f.readMat "paramsD") = some exampleSaved.node.matD ∧
    (exampleSaved.world.files exampleSaved.node.camera_info_file_).map
        (fun f => (f.mats.lookup "MatrixD", f.mats.lookup "MatrixK", f.mats.lookup "MatrixP")) =
      some (none, none, none) ∧
    (exampleSaved.node.setCalibrationFromFile exampleSaved.world).1 = true ∧
    (exampleSaved.node.setCalibrationFromFile exampleSaved.world).2.matD = Mat.empty ∧
    (exampleSaved.node.setCalibrationFromFile exampleSaved.world).2.matK = Mat.empty ∧
    (exampleSaved.node.setCalibrationFromFile exampleSaved.world).2.matP = Mat.empty ∧
    (BflyCameraNode.new exampleParams (fun _ => 0) exampleSaved.world).matD = Mat.empty ∧
    (exampleSaved.node.setCalibrationFromFile exampleSaved.world).2.matD ≠
      exampleSaved.node.matD := by
  refine ⟨rfl, rfl, rfl, rfl, rfl, rfl, rfl, rfl, rfl, rfl, rfl, rfl, rfl, ?_⟩
  have h1 : (exampleSaved.node.setCalibrationFromFile exampleSaved.world).2.matD = Mat.empty :=
    rfl
  have h2 : exampleSaved.node.matD = ⟨5, 1, [1, 2, 3, 4, 5]⟩ := rfl
  rw [h1, h2]
  decide

end BflyCamera
